import Mathlib

/-!
Verification of the AstroShield physics and orbital-mechanics engine.

Shallow embedding of the computational core:
* `server/models/asteroid_impact.py` — class `AsteroidImpact`
  (kinetic energy, crater scaling, seismic magnitude, air blast, casualties);
* `server/utils/orbital_mechanics.py` — class `RealisticOrbitalMechanics`
  (Keplerian position propagation, Kepler-equation solver);
* `server/controllers/prediction_controller.py` — class `StrategicImpactGenerator`
  (close-approach scan and impact-scenario synthesis).

Machine floats are modelled as real numbers; Python exceptions of
`calculate_position` are modelled with `Except` following the exact guard
conditions under which `math.sqrt`, float division and dictionary lookup
raise in the source.
-/

namespace AstroShield

/-! ## Impact Effects Calculator (`server/models/asteroid_impact.py`) -/

/-- `AsteroidImpact.__init__`: `self.angle = math.radians(angle_degrees)`. -/
noncomputable def radiansOf (deg : ℝ) : ℝ := deg * Real.pi / 180

/-- `math.degrees`. -/
noncomputable def degreesOf (rad : ℝ) : ℝ := rad * 180 / Real.pi

/-- `AsteroidImpact.__init__`: `self.mass = (4/3)*pi*(diameter/2)**3 * density`. -/
noncomputable def asteroid_mass (d ρ : ℝ) : ℝ := (4 / 3) * Real.pi * (d / 2) ^ 3 * ρ

/-- `AsteroidImpact.calculate_kinetic_energy`: `0.5 * self.mass * self.velocity**2`,
with `self.velocity = velocity_km_s * 1000`. -/
noncomputable def kinetic_energy_joules (d v ρ : ℝ) : ℝ :=
  0.5 * asteroid_mass d ρ * (v * 1000) ^ 2

/-- `tnt_kilotons = ke_joules / 4.184e12`. -/
noncomputable def energy_tnt_kilotons (d v ρ : ℝ) : ℝ :=
  kinetic_energy_joules d v ρ / 4.184e12

/-- `tnt_megatons = tnt_kilotons / 1000`. -/
noncomputable def energy_tnt_megatons (d v ρ : ℝ) : ℝ :=
  energy_tnt_kilotons d v ρ / 1000

/-- Claim C1: `calculate_kinetic_energy` returns
`energy_joules = ½·mass·(1000·v)²` with `mass = (4/3)·π·(d/2)³·ρ`,
`energy_tnt_kilotons = energy_joules / 4.184e12` and
`energy_tnt_megatons = energy_tnt_kilotons / 1000`; doubling the velocity
multiplies the energy by exactly 4 and doubling the diameter multiplies it
by exactly 8.  (The computation is a total function of its inputs.) -/
theorem C1_kinetic_energy (d v ρ : ℝ) (hd : 0 < d) (hv : 0 < v) (hρ : 0 < ρ) :
    kinetic_energy_joules d v ρ =
      0.5 * ((4 / 3) * Real.pi * (d / 2) ^ 3 * ρ) * (1000 * v) ^ 2 ∧
    energy_tnt_kilotons d v ρ = kinetic_energy_joules d v ρ / 4.184e12 ∧
    energy_tnt_megatons d v ρ = energy_tnt_kilotons d v ρ / 1000 ∧
    kinetic_energy_joules d (2 * v) ρ = 4 * kinetic_energy_joules d v ρ ∧
    kinetic_energy_joules (2 * d) v ρ = 8 * kinetic_energy_joules d v ρ := by
  refine ⟨?_, rfl, rfl, ?_, ?_⟩
  · unfold kinetic_energy_joules asteroid_mass; ring
  · unfold kinetic_energy_joules asteroid_mass; ring
  · unfold kinetic_energy_joules asteroid_mass; ring

/-- Witness for C1 at diameter 50 m, velocity 20 km/s, density 2600 kg/m³. -/
theorem C1_kinetic_energy_witness :
    (0:ℝ) < 50 ∧ (0:ℝ) < 20 ∧ (0:ℝ) < 2600 ∧
    (kinetic_energy_joules 50 20 2600 =
      0.5 * ((4 / 3) * Real.pi * ((50:ℝ) / 2) ^ 3 * 2600) * (1000 * 20) ^ 2 ∧
    energy_tnt_kilotons 50 20 2600 = kinetic_energy_joules 50 20 2600 / 4.184e12 ∧
    energy_tnt_megatons 50 20 2600 = energy_tnt_kilotons 50 20 2600 / 1000 ∧
    kinetic_energy_joules 50 (2 * 20) 2600 = 4 * kinetic_energy_joules 50 20 2600 ∧
    kinetic_energy_joules (2 * 50) 20 2600 = 8 * kinetic_energy_joules 50 20 2600) :=
  ⟨by norm_num, by norm_num, by norm_num,
    C1_kinetic_energy 50 20 2600 (by norm_num) (by norm_num) (by norm_num)⟩

/-- `self.target_density = 2670` (average crustal density, kg/m³). -/
def target_density : ℝ := 2670

/-- `self.g = 9.81` (gravity, m/s²). -/
def gravity_g : ℝ := 9.81

/-- `calculate_crater_size`: `eff_energy = ke * sin(self.angle)**2`. -/
noncomputable def effective_energy (d v ρ θ : ℝ) : ℝ :=
  kinetic_energy_joules d v ρ * Real.sin (radiansOf θ) ^ 2

/-- `calculate_crater_size`: the Schmidt-Housen scaling expression as a function
of the effective energy,
`K * (eff_energy/(target_density*g))**0.22 * (density**0.11 / target_density**0.11)`
with `K = 1.88`. -/
noncomputable def crater_diameter_of_energy (Eeff ρ : ℝ) : ℝ :=
  1.88 * (Eeff / (target_density * gravity_g)) ^ (0.22 : ℝ) *
    (ρ ^ (0.11 : ℝ) / target_density ^ (0.11 : ℝ))

/-- `calculate_crater_size` → `diameter_m`. -/
noncomputable def crater_diameter_m (d v ρ θ : ℝ) : ℝ :=
  crater_diameter_of_energy (effective_energy d v ρ θ) ρ

/-- `crater_depth = crater_diameter * 0.2`. -/
noncomputable def crater_depth_m (d v ρ θ : ℝ) : ℝ := crater_diameter_m d v ρ θ * 0.2

/-- `rim_height = crater_diameter * 0.07`. -/
noncomputable def crater_rim_height_m (d v ρ θ : ℝ) : ℝ := crater_diameter_m d v ρ θ * 0.07

/-- `volume_m3 = pi * (crater_diameter/2)**2 * crater_depth / 3`. -/
noncomputable def crater_volume_m3 (d v ρ θ : ℝ) : ℝ :=
  Real.pi * (crater_diameter_m d v ρ θ / 2) ^ 2 * crater_depth_m d v ρ θ / 3

/-- The crater scaling expression is strictly increasing in the effective
energy (for a fixed positive impactor density). -/
theorem crater_diameter_of_energy_strictMono (ρ : ℝ) (hρ : 0 < ρ) {E1 E2 : ℝ}
    (hE1 : 0 ≤ E1) (h12 : E1 < E2) :
    crater_diameter_of_energy E1 ρ < crater_diameter_of_energy E2 ρ := by
  unfold crater_diameter_of_energy target_density gravity_g
  have hc : (0 : ℝ) < 2670 * 9.81 := by norm_num
  have h1 : (E1 / (2670 * 9.81) : ℝ) < E2 / (2670 * 9.81) := by
    have := mul_lt_mul_of_pos_right h12 (by positivity : (0:ℝ) < (2670 * 9.81)⁻¹)
    simpa [div_eq_mul_inv] using this
  have h2 := Real.rpow_lt_rpow (div_nonneg hE1 hc.le) h1 (by norm_num : (0:ℝ) < 0.22)
  have hB : (0 : ℝ) < ρ ^ (0.11 : ℝ) / (2670 : ℝ) ^ (0.11 : ℝ) :=
    div_pos (Real.rpow_pos_of_pos hρ _) (Real.rpow_pos_of_pos (by norm_num) _)
  nlinarith [mul_pos (sub_pos.mpr h2) hB]

/-- The crater diameter is strictly increasing in the impact angle on (0°, 90°]. -/
theorem crater_diameter_strictMono_angle (d v ρ : ℝ) (hd : 0 < d) (hv : 0 < v)
    (hρ : 0 < ρ) {θ1 θ2 : ℝ} (h1 : 0 < θ1) (h12 : θ1 < θ2) (h2 : θ2 ≤ 90) :
    crater_diameter_m d v ρ θ1 < crater_diameter_m d v ρ θ2 := by
  have hπ := Real.pi_pos
  have hr1 : 0 < radiansOf θ1 := by
    unfold radiansOf; exact div_pos (mul_pos h1 hπ) (by norm_num)
  have hr12 : radiansOf θ1 < radiansOf θ2 := by
    unfold radiansOf
    have := mul_lt_mul_of_pos_right h12 hπ
    linarith
  have hr2 : radiansOf θ2 ≤ Real.pi / 2 := by
    unfold radiansOf
    nlinarith [mul_nonneg (by linarith : (0:ℝ) ≤ 90 - θ2) hπ.le]
  have hmem1 : radiansOf θ1 ∈ Set.Icc (-(Real.pi / 2)) (Real.pi / 2) :=
    ⟨by linarith, by linarith⟩
  have hmem2 : radiansOf θ2 ∈ Set.Icc (-(Real.pi / 2)) (Real.pi / 2) :=
    ⟨by linarith, hr2⟩
  have hs := Real.strictMonoOn_sin hmem1 hmem2 hr12
  have hs1 : 0 < Real.sin (radiansOf θ1) :=
    Real.sin_pos_of_pos_of_lt_pi hr1 (by linarith)
  have hsq : Real.sin (radiansOf θ1) ^ 2 < Real.sin (radiansOf θ2) ^ 2 := by nlinarith
  have hK : 0 < kinetic_energy_joules d v ρ := by
    unfold kinetic_energy_joules asteroid_mass; positivity
  have hEeff : effective_energy d v ρ θ1 < effective_energy d v ρ θ2 := by
    unfold effective_energy; exact mul_lt_mul_of_pos_left hsq hK
  have hEnn : 0 ≤ effective_energy d v ρ θ1 := by
    unfold effective_energy
    exact mul_nonneg hK.le (sq_nonneg _)
  exact crater_diameter_of_energy_strictMono ρ hρ hEnn hEeff

/-- Claim C2: `calculate_crater_size` returns
`diameter_m = 1.88 · (E·sin²(angle)/(2670·9.81))^0.22 · (ρ/2670)^0.11`,
`depth_m = 0.2·diameter_m`, `rim_height_m = 0.07·diameter_m`,
`volume_m3 = π·(diameter_m/2)²·depth_m/3`; the crater diameter is strictly
increasing in impact energy and in impact angle on (0°, 90°], and tends to 0
as the angle tends to 0°. -/
theorem C2_crater_size (d v ρ θ : ℝ) (hd : 0 < d) (hv : 0 < v) (hρ : 0 < ρ)
    (hθ0 : 0 < θ) (hθ90 : θ ≤ 90) :
    crater_diameter_m d v ρ θ =
      1.88 * (kinetic_energy_joules d v ρ * Real.sin (radiansOf θ) ^ 2
          / (2670 * 9.81)) ^ (0.22 : ℝ) * ((ρ / 2670) ^ (0.11 : ℝ)) ∧
    crater_depth_m d v ρ θ = 0.2 * crater_diameter_m d v ρ θ ∧
    crater_rim_height_m d v ρ θ = 0.07 * crater_diameter_m d v ρ θ ∧
    crater_volume_m3 d v ρ θ =
      Real.pi * (crater_diameter_m d v ρ θ / 2) ^ 2 * crater_depth_m d v ρ θ / 3 ∧
    (∀ E1 E2 : ℝ, 0 ≤ E1 → E1 < E2 →
      crater_diameter_of_energy E1 ρ < crater_diameter_of_energy E2 ρ) ∧
    (∀ θ1 θ2 : ℝ, 0 < θ1 → θ1 < θ2 → θ2 ≤ 90 →
      crater_diameter_m d v ρ θ1 < crater_diameter_m d v ρ θ2) ∧
    Filter.Tendsto (fun a : ℝ => crater_diameter_m d v ρ a) (nhds 0) (nhds 0) := by
  refine ⟨?_, by unfold crater_depth_m; ring, by unfold crater_rim_height_m; ring, rfl,
    fun E1 E2 hE1 h12 => crater_diameter_of_energy_strictMono ρ hρ hE1 h12,
    fun θ1 θ2 h1 h12 h2 => crater_diameter_strictMono_angle d v ρ hd hv hρ h1 h12 h2, ?_⟩
  · have hdr : ((ρ : ℝ) / 2670) ^ (0.11 : ℝ) = ρ ^ (0.11 : ℝ) / (2670 : ℝ) ^ (0.11 : ℝ) :=
      Real.div_rpow hρ.le (by norm_num) _
    unfold crater_diameter_m crater_diameter_of_energy effective_energy target_density gravity_g
    rw [hdr]
  · have t1 : Filter.Tendsto (fun a : ℝ =>
        kinetic_energy_joules d v ρ * Real.sin (a * Real.pi / 180) ^ 2 / (2670 * 9.81 : ℝ))
        (nhds 0) (nhds 0) := by
      have hKc : Continuous fun a : ℝ =>
          kinetic_energy_joules d v ρ * Real.sin (a * Real.pi / 180) ^ 2 / (2670 * 9.81 : ℝ) :=
        (continuous_const.mul ((Real.continuous_sin.comp
          ((continuous_id.mul continuous_const).div_const 180)).pow 2)).div_const _
      simpa using (hKc.continuousAt : ContinuousAt _ (0:ℝ)).tendsto
    have t2 : Filter.Tendsto (fun x : ℝ => x ^ (0.22 : ℝ)) (nhds 0) (nhds 0) := by
      have h := (Real.continuousAt_rpow_const 0 0.22 (Or.inr (by norm_num))).tendsto
      simpa [Real.zero_rpow (by norm_num : (0.22:ℝ) ≠ 0)] using h
    have t3 := t2.comp t1
    have t4 := (t3.const_mul (1.88 : ℝ)).mul_const
      (ρ ^ (0.11 : ℝ) / target_density ^ (0.11 : ℝ))
    simpa [crater_diameter_m, crater_diameter_of_energy, effective_energy, radiansOf,
      target_density, gravity_g, Function.comp] using t4

/-- Witness for C2 at diameter 50 m, velocity 20 km/s, density 2600 kg/m³,
angle 45°. -/
theorem C2_crater_size_witness :
    (0:ℝ) < 50 ∧ (0:ℝ) < 20 ∧ (0:ℝ) < 2600 ∧ (0:ℝ) < 45 ∧ (45:ℝ) ≤ 90 ∧
    (crater_diameter_m 50 20 2600 45 =
      1.88 * (kinetic_energy_joules 50 20 2600 * Real.sin (radiansOf 45) ^ 2
          / (2670 * 9.81)) ^ (0.22 : ℝ) * (((2600:ℝ) / 2670) ^ (0.11 : ℝ)) ∧
    crater_depth_m 50 20 2600 45 = 0.2 * crater_diameter_m 50 20 2600 45 ∧
    crater_rim_height_m 50 20 2600 45 = 0.07 * crater_diameter_m 50 20 2600 45 ∧
    crater_volume_m3 50 20 2600 45 =
      Real.pi * (crater_diameter_m 50 20 2600 45 / 2) ^ 2 * crater_depth_m 50 20 2600 45 / 3 ∧
    (∀ E1 E2 : ℝ, 0 ≤ E1 → E1 < E2 →
      crater_diameter_of_energy E1 2600 < crater_diameter_of_energy E2 2600) ∧
    (∀ θ1 θ2 : ℝ, 0 < θ1 → θ1 < θ2 → θ2 ≤ 90 →
      crater_diameter_m 50 20 2600 θ1 < crater_diameter_m 50 20 2600 θ2) ∧
    Filter.Tendsto (fun a : ℝ => crater_diameter_m 50 20 2600 a) (nhds 0) (nhds 0)) :=
  ⟨by norm_num, by norm_num, by norm_num, by norm_num, by norm_num,
    C2_crater_size 50 20 2600 45 (by norm_num) (by norm_num) (by norm_num)
      (by norm_num) (by norm_num)⟩

/-- `calculate_seismic_magnitude`: `energy_ergs = ke * 1e7`;
`magnitude = (log10(energy_ergs) - 11.8)/1.5` when `energy_ergs > 0`, else `0`;
returned `moment_magnitude = max(0, magnitude)`. -/
noncomputable def moment_magnitude_of_energy (Ej : ℝ) : ℝ :=
  let energy_ergs := Ej * 1e7
  let magnitude := if 0 < energy_ergs then (Real.logb 10 energy_ergs - 11.8) / 1.5 else 0
  max 0 magnitude

/-- `AsteroidImpact.calculate_seismic_magnitude` → `moment_magnitude`. -/
noncomputable def calculate_seismic_magnitude (d v ρ : ℝ) : ℝ :=
  moment_magnitude_of_energy (kinetic_energy_joules d v ρ)

/-- Claim C3: the returned moment magnitude is
`max(0, (log₁₀(E·10⁷) − 11.8)/1.5)`; it is monotonically increasing in the
energy, and at the energy whose erg value is exactly `10^(11.8+1.5·6)` the
magnitude is 6.0 within 1e-9. -/
theorem C3_seismic_magnitude (d v ρ E1 E2 : ℝ) (hd : 0 < d) (hv : 0 < v) (hρ : 0 < ρ)
    (hE1 : 0 < E1) (h12 : E1 ≤ E2) :
    calculate_seismic_magnitude d v ρ =
      max 0 ((Real.logb 10 (kinetic_energy_joules d v ρ * 1e7) - 11.8) / 1.5) ∧
    moment_magnitude_of_energy E1 ≤ moment_magnitude_of_energy E2 ∧
    |moment_magnitude_of_energy ((10:ℝ) ^ (11.8 + 1.5 * 6 : ℝ) / 1e7) - 6| ≤ 1e-9 := by
  refine ⟨?_, ?_, ?_⟩
  · have hpos : 0 < kinetic_energy_joules d v ρ * 1e7 := by
      have : 0 < kinetic_energy_joules d v ρ := by
        unfold kinetic_energy_joules asteroid_mass; positivity
      positivity
    simp only [calculate_seismic_magnitude, moment_magnitude_of_energy]
    rw [if_pos hpos]
  · have h1 : (0:ℝ) < E1 * 1e7 := by positivity
    have h2 : (0:ℝ) < E2 * 1e7 := by nlinarith
    have hle : E1 * 1e7 ≤ E2 * 1e7 := by nlinarith
    simp only [moment_magnitude_of_energy]
    rw [if_pos h1, if_pos h2]
    have hlog := Real.logb_le_logb_of_le (by norm_num : (1:ℝ) < 10) h1 hle
    exact max_le_max le_rfl (by gcongr)
  · have hx : ((10:ℝ) ^ (11.8 + 1.5 * 6 : ℝ) / 1e7) * 1e7 = (10:ℝ) ^ (11.8 + 1.5 * 6 : ℝ) :=
      div_mul_cancel₀ _ (by norm_num)
    have hpos : (0:ℝ) < ((10:ℝ) ^ (11.8 + 1.5 * 6 : ℝ) / 1e7) * 1e7 := by
      rw [hx]; exact Real.rpow_pos_of_pos (by norm_num) _
    simp only [moment_magnitude_of_energy]
    rw [if_pos hpos, hx, Real.logb_rpow (by norm_num) (by norm_num)]
    norm_num

/-- Witness for C3. -/
theorem C3_seismic_magnitude_witness :
    (0:ℝ) < 50 ∧ (0:ℝ) < 20 ∧ (0:ℝ) < 2600 ∧ (0:ℝ) < 1 ∧ (1:ℝ) ≤ 2 ∧
    (calculate_seismic_magnitude 50 20 2600 =
      max 0 ((Real.logb 10 (kinetic_energy_joules 50 20 2600 * 1e7) - 11.8) / 1.5) ∧
    moment_magnitude_of_energy 1 ≤ moment_magnitude_of_energy 2 ∧
    |moment_magnitude_of_energy ((10:ℝ) ^ (11.8 + 1.5 * 6 : ℝ) / 1e7) - 6| ≤ 1e-9) :=
  ⟨by norm_num, by norm_num, by norm_num, by norm_num, by norm_num,
    C3_seismic_magnitude 50 20 2600 1 2 (by norm_num) (by norm_num) (by norm_num)
      (by norm_num) (by norm_num)⟩

/-! ### Air blast and casualties -/

/-- `calculate_air_blast`: the overpressure and thermal ranges
`(1_psi_km, 5_psi_km, 20_psi_km, thermal_3rd_degree_km)` computed only when the
kiloton yield is strictly positive (the source returns an empty dict otherwise). -/
noncomputable def air_blast_ranges (d v ρ : ℝ) : Option (ℝ × ℝ × ℝ × ℝ) :=
  if 0 < energy_tnt_kilotons d v ρ then
    some (2.2 * energy_tnt_kilotons d v ρ ^ (0.33 : ℝ),
          0.8 * energy_tnt_kilotons d v ρ ^ (0.33 : ℝ),
          0.3 * energy_tnt_kilotons d v ρ ^ (0.33 : ℝ),
          1.9 * energy_tnt_kilotons d v ρ ^ (0.41 : ℝ))
  else none

/-- Python `int()` applied to a float: truncation toward zero. -/
noncomputable def pyInt (x : ℝ) : ℤ := if 0 ≤ x then ⌊x⌋ else ⌈x⌉

theorem pyInt_floor {x : ℝ} (hx : 0 ≤ x) : pyInt x = ⌊x⌋ := by
  unfold pyInt; rw [if_pos hx]

theorem pyInt_nonneg {x : ℝ} (hx : 0 ≤ x) : 0 ≤ pyInt x := by
  rw [pyInt_floor hx]; exact Int.floor_nonneg.mpr hx

theorem pyInt_le {x : ℝ} (hx : 0 ≤ x) : (pyInt x : ℝ) ≤ x := by
  rw [pyInt_floor hx]; exact Int.floor_le x

/-- One damage zone of `estimate_casualties`. -/
structure ZoneCasualties where
  population : ℤ
  fatalities : ℤ
  injuries : ℤ
  radius_km : ℝ

/-- The dictionary returned by `estimate_casualties` (three zones plus totals). -/
structure CasualtyReport where
  severe : ZoneCasualties
  heavy : ZoneCasualties
  light : ZoneCasualties
  total_fatalities : ℤ
  total_injuries : ℤ
  total_affected : ℤ

/-- The body of `estimate_casualties` once blast ranges exist: annulus areas,
populations capped by the remaining population, casualty rates
90%/10%, 50%/40%, 5%/30%, integer truncation, zone totals. -/
noncomputable def casualties_from_ranges (r1 r5 r20 dens totalPop : ℝ) : CasualtyReport :=
  let area_20 := Real.pi * r20 ^ 2
  let area_5 := Real.pi * r5 ^ 2 - area_20
  let area_1 := Real.pi * r1 ^ 2 - area_5 - area_20
  let pop_20 := min (area_20 * dens) totalPop
  let pop_5 := min (area_5 * dens) (totalPop - pop_20)
  let pop_1 := min (area_1 * dens) (totalPop - pop_20 - pop_5)
  let severe : ZoneCasualties := ⟨pyInt pop_20, pyInt (pop_20 * 0.90), pyInt (pop_20 * 0.10), r20⟩
  let heavy : ZoneCasualties := ⟨pyInt pop_5, pyInt (pop_5 * 0.50), pyInt (pop_5 * 0.40), r5⟩
  let light : ZoneCasualties := ⟨pyInt pop_1, pyInt (pop_1 * 0.05), pyInt (pop_1 * 0.30), r1⟩
  ⟨severe, heavy, light,
    severe.fatalities + heavy.fatalities + light.fatalities,
    severe.injuries + heavy.injuries + light.injuries,
    severe.population + heavy.population + light.population⟩

/-- `AsteroidImpact.estimate_casualties`: empty result when the blast ranges are
empty, otherwise the zone report. -/
noncomputable def estimate_casualties (d v ρ dens totalPop : ℝ) : Option CasualtyReport :=
  match air_blast_ranges d v ρ with
  | none => none
  | some (r1, r5, r20, _) => some (casualties_from_ranges r1 r5 r20 dens totalPop)

/-- Zone populations of `estimate_casualties` are capped by the remaining
population, are non-negative, and the light annulus area telescopes to
`π·r1² − π·r5²`; the report applies the fixed 90/10, 50/40, 5/30 rates. -/
theorem casualties_from_ranges_spec (r1 r5 r20 dens totalPop : ℝ)
    (h20 : 0 ≤ r20) (h205 : r20 ≤ r5) (h51 : r5 ≤ r1)
    (hdens : 0 ≤ dens) (hpop : 0 ≤ totalPop) :
    ∃ p20 p5 p1 : ℝ,
      p20 = min (Real.pi * r20 ^ 2 * dens) totalPop ∧
      p5 = min ((Real.pi * r5 ^ 2 - Real.pi * r20 ^ 2) * dens) (totalPop - p20) ∧
      p1 = min ((Real.pi * r1 ^ 2 - Real.pi * r5 ^ 2) * dens) (totalPop - p20 - p5) ∧
      0 ≤ p20 ∧ 0 ≤ p5 ∧ 0 ≤ p1 ∧
      p20 ≤ totalPop ∧ p5 ≤ totalPop - p20 ∧ p1 ≤ totalPop - p20 - p5 ∧
      casualties_from_ranges r1 r5 r20 dens totalPop =
        ⟨⟨pyInt p20, pyInt (p20 * 0.90), pyInt (p20 * 0.10), r20⟩,
         ⟨pyInt p5, pyInt (p5 * 0.50), pyInt (p5 * 0.40), r5⟩,
         ⟨pyInt p1, pyInt (p1 * 0.05), pyInt (p1 * 0.30), r1⟩,
         pyInt (p20 * 0.90) + pyInt (p5 * 0.50) + pyInt (p1 * 0.05),
         pyInt (p20 * 0.10) + pyInt (p5 * 0.40) + pyInt (p1 * 0.30),
         pyInt p20 + pyInt p5 + pyInt p1⟩ := by
  have h20n : 0 ≤ Real.pi * r20 ^ 2 * dens := by positivity
  have hsq5 : r20 ^ 2 ≤ r5 ^ 2 := by nlinarith
  have hsq1 : r5 ^ 2 ≤ r1 ^ 2 := by nlinarith
  have h5n : 0 ≤ (Real.pi * r5 ^ 2 - Real.pi * r20 ^ 2) * dens :=
    mul_nonneg (by nlinarith [Real.pi_pos]) hdens
  have h1n : 0 ≤ (Real.pi * r1 ^ 2 - Real.pi * r5 ^ 2) * dens :=
    mul_nonneg (by nlinarith [Real.pi_pos]) hdens
  have hc20 : min (Real.pi * r20 ^ 2 * dens) totalPop ≤ totalPop := min_le_right _ _
  refine ⟨_, _, _, rfl, rfl, rfl, le_min h20n hpop, ?_, ?_, hc20, min_le_right _ _,
    min_le_right _ _, ?_⟩
  · exact le_min h5n (by linarith)
  · refine le_min h1n ?_
    have := min_le_right ((Real.pi * r5 ^ 2 - Real.pi * r20 ^ 2) * dens)
      (totalPop - min (Real.pi * r20 ^ 2 * dens) totalPop)
    linarith
  · simp only [casualties_from_ranges]
    rw [show Real.pi * r1 ^ 2 - (Real.pi * r5 ^ 2 - Real.pi * r20 ^ 2) - Real.pi * r20 ^ 2
        = Real.pi * r1 ^ 2 - Real.pi * r5 ^ 2 from by ring]

/-- Claim C4: for positive asteroid parameters and non-negative population
data, `estimate_casualties` partitions the blast radii into three concentric
annuli, caps each annulus population by the population remaining after the
inner zones, applies fatality/injury rates 90%/10%, 50%/40%, 5%/30%, and every
returned count is a non-negative integer with the total affected population
bounded by the total population. -/
theorem C4_estimate_casualties (d v ρ dens totalPop : ℝ)
    (hd : 0 < d) (hv : 0 < v) (hρ : 0 < ρ) (hdens : 0 ≤ dens) (hpop : 0 ≤ totalPop) :
    ∃ rep r1 r5 r20 rth,
      estimate_casualties d v ρ dens totalPop = some rep ∧
      air_blast_ranges d v ρ = some (r1, r5, r20, rth) ∧
      0 ≤ r20 ∧ r20 ≤ r5 ∧ r5 ≤ r1 ∧
      (∃ p20 p5 p1 : ℝ,
        p20 = min (Real.pi * r20 ^ 2 * dens) totalPop ∧
        p5 = min ((Real.pi * r5 ^ 2 - Real.pi * r20 ^ 2) * dens) (totalPop - p20) ∧
        p1 = min ((Real.pi * r1 ^ 2 - Real.pi * r5 ^ 2) * dens) (totalPop - p20 - p5) ∧
        rep.severe = ⟨pyInt p20, pyInt (p20 * 0.90), pyInt (p20 * 0.10), r20⟩ ∧
        rep.heavy = ⟨pyInt p5, pyInt (p5 * 0.50), pyInt (p5 * 0.40), r5⟩ ∧
        rep.light = ⟨pyInt p1, pyInt (p1 * 0.05), pyInt (p1 * 0.30), r1⟩) ∧
      0 ≤ rep.severe.population ∧ 0 ≤ rep.severe.fatalities ∧ 0 ≤ rep.severe.injuries ∧
      0 ≤ rep.heavy.population ∧ 0 ≤ rep.heavy.fatalities ∧ 0 ≤ rep.heavy.injuries ∧
      0 ≤ rep.light.population ∧ 0 ≤ rep.light.fatalities ∧ 0 ≤ rep.light.injuries ∧
      0 ≤ rep.total_fatalities ∧ 0 ≤ rep.total_injuries ∧ 0 ≤ rep.total_affected ∧
      rep.total_affected = rep.severe.population + rep.heavy.population + rep.light.population ∧
      (rep.total_affected : ℝ) ≤ totalPop := by
  have hY : 0 < energy_tnt_kilotons d v ρ := by
    unfold energy_tnt_kilotons kinetic_energy_joules asteroid_mass; positivity
  have hYr : (0:ℝ) ≤ energy_tnt_kilotons d v ρ ^ (0.33 : ℝ) := Real.rpow_nonneg hY.le _
  have hblast : air_blast_ranges d v ρ =
      some (2.2 * energy_tnt_kilotons d v ρ ^ (0.33 : ℝ),
            0.8 * energy_tnt_kilotons d v ρ ^ (0.33 : ℝ),
            0.3 * energy_tnt_kilotons d v ρ ^ (0.33 : ℝ),
            1.9 * energy_tnt_kilotons d v ρ ^ (0.41 : ℝ)) := by
    unfold air_blast_ranges; exact if_pos hY
  obtain ⟨p20, p5, p1, hdef20, hdef5, hdef1, hn20, hn5, hn1, hcap20, hcap5, hcap1, hrep⟩ :=
    casualties_from_ranges_spec
      (2.2 * energy_tnt_kilotons d v ρ ^ (0.33 : ℝ))
      (0.8 * energy_tnt_kilotons d v ρ ^ (0.33 : ℝ))
      (0.3 * energy_tnt_kilotons d v ρ ^ (0.33 : ℝ))
      dens totalPop (by linarith) (by linarith) (by linarith) hdens hpop
  refine ⟨casualties_from_ranges
      (2.2 * energy_tnt_kilotons d v ρ ^ (0.33 : ℝ))
      (0.8 * energy_tnt_kilotons d v ρ ^ (0.33 : ℝ))
      (0.3 * energy_tnt_kilotons d v ρ ^ (0.33 : ℝ)) dens totalPop,
    _, _, _, _, ?_, hblast, by linarith, by linarith, by linarith,
    ⟨p20, p5, p1, hdef20, hdef5, hdef1, by rw [hrep], by rw [hrep], by rw [hrep]⟩,
    ?_, ?_, ?_, ?_, ?_, ?_, ?_, ?_, ?_, ?_, ?_, ?_, ?_, ?_⟩
  · unfold estimate_casualties; rw [hblast]
  · rw [hrep]; exact pyInt_nonneg hn20
  · rw [hrep]; exact pyInt_nonneg (mul_nonneg hn20 (by norm_num))
  · rw [hrep]; exact pyInt_nonneg (mul_nonneg hn20 (by norm_num))
  · rw [hrep]; exact pyInt_nonneg hn5
  · rw [hrep]; exact pyInt_nonneg (mul_nonneg hn5 (by norm_num))
  · rw [hrep]; exact pyInt_nonneg (mul_nonneg hn5 (by norm_num))
  · rw [hrep]; exact pyInt_nonneg hn1
  · rw [hrep]; exact pyInt_nonneg (mul_nonneg hn1 (by norm_num))
  · rw [hrep]; exact pyInt_nonneg (mul_nonneg hn1 (by norm_num))
  · rw [hrep]
    exact add_nonneg (add_nonneg (pyInt_nonneg (mul_nonneg hn20 (by norm_num)))
      (pyInt_nonneg (mul_nonneg hn5 (by norm_num))))
      (pyInt_nonneg (mul_nonneg hn1 (by norm_num)))
  · rw [hrep]
    exact add_nonneg (add_nonneg (pyInt_nonneg (mul_nonneg hn20 (by norm_num)))
      (pyInt_nonneg (mul_nonneg hn5 (by norm_num))))
      (pyInt_nonneg (mul_nonneg hn1 (by norm_num)))
  · rw [hrep]
    exact add_nonneg (add_nonneg (pyInt_nonneg hn20) (pyInt_nonneg hn5)) (pyInt_nonneg hn1)
  · rw [hrep]
  · rw [hrep]
    have l20 := pyInt_le hn20
    have l5 := pyInt_le hn5
    have l1 := pyInt_le hn1
    push_cast
    linarith

/-- Witness for C4 at diameter 50 m, velocity 20 km/s, density 2600 kg/m³,
population density 100 per km², total population 1000000. -/
theorem C4_estimate_casualties_witness :
    (0:ℝ) < 50 ∧ (0:ℝ) < 20 ∧ (0:ℝ) < 2600 ∧ (0:ℝ) ≤ 100 ∧ (0:ℝ) ≤ 1000000 ∧
    (∃ rep r1 r5 r20 rth,
      estimate_casualties 50 20 2600 100 1000000 = some rep ∧
      air_blast_ranges 50 20 2600 = some (r1, r5, r20, rth) ∧
      0 ≤ r20 ∧ r20 ≤ r5 ∧ r5 ≤ r1 ∧
      (∃ p20 p5 p1 : ℝ,
        p20 = min (Real.pi * r20 ^ 2 * 100) 1000000 ∧
        p5 = min ((Real.pi * r5 ^ 2 - Real.pi * r20 ^ 2) * 100) (1000000 - p20) ∧
        p1 = min ((Real.pi * r1 ^ 2 - Real.pi * r5 ^ 2) * 100) (1000000 - p20 - p5) ∧
        rep.severe = ⟨pyInt p20, pyInt (p20 * 0.90), pyInt (p20 * 0.10), r20⟩ ∧
        rep.heavy = ⟨pyInt p5, pyInt (p5 * 0.50), pyInt (p5 * 0.40), r5⟩ ∧
        rep.light = ⟨pyInt p1, pyInt (p1 * 0.05), pyInt (p1 * 0.30), r1⟩) ∧
      0 ≤ rep.severe.population ∧ 0 ≤ rep.severe.fatalities ∧ 0 ≤ rep.severe.injuries ∧
      0 ≤ rep.heavy.population ∧ 0 ≤ rep.heavy.fatalities ∧ 0 ≤ rep.heavy.injuries ∧
      0 ≤ rep.light.population ∧ 0 ≤ rep.light.fatalities ∧ 0 ≤ rep.light.injuries ∧
      0 ≤ rep.total_fatalities ∧ 0 ≤ rep.total_injuries ∧ 0 ≤ rep.total_affected ∧
      rep.total_affected = rep.severe.population + rep.heavy.population + rep.light.population ∧
      (rep.total_affected : ℝ) ≤ 1000000) :=
  ⟨by norm_num, by norm_num, by norm_num, by norm_num, by norm_num,
    C4_estimate_casualties 50 20 2600 100 1000000 (by norm_num) (by norm_num)
      (by norm_num) (by norm_num) (by norm_num)⟩

/-! ## Close-approach scan (`server/controllers/prediction_controller.py`,
`StrategicImpactGenerator.check_close_approach_and_generate_impact`)

The scan's control flow is embedded over the sampled Earth-relative
distances: each time step contributes a success flag (both position
calculations returned `success`) and the distance computed at that step. -/

/-- One sampled time step of the scan. -/
structure Sample where
  success : Bool
  distance : ℚ

/-- `self.IMPACT_THRESHOLD_KM = 100000`. -/
def IMPACT_THRESHOLD_KM : ℚ := 100000

/-- `self.CLOSE_APPROACH_DETECTION_KM = 500000`. -/
def CLOSE_APPROACH_DETECTION_KM : ℚ := 500000

/-- The running-minimum loop of the scan: starting from `acc` (`none` models
the initial `float('inf')`), each successful sample replaces the current
minimum when its distance is strictly smaller. -/
def scanMin (ss : List Sample) (acc : Option ℚ) : Option ℚ :=
  ss.foldl
    (fun a s =>
      if s.success then
        match a with
        | none => some s.distance
        | some c => if s.distance < c then some s.distance else some c
      else a)
    acc

/-- The distances of the successful samples of a scan. -/
def successDistances (ss : List Sample) : List ℚ :=
  ss.filterMap (fun s => if s.success then some s.distance else none)

/-- Minimum distance after the coarse scan (phase 1) and the conditional fine
refinement (phase 2): the fine scan runs only when the coarse minimum is
below the 500,000 km detection threshold, and is seeded with the coarse
minimum. -/
def finalClosest (coarse fine : List Sample) : Option ℚ :=
  match scanMin coarse none with
  | none => none
  | some dc =>
    if dc < CLOSE_APPROACH_DETECTION_KM then scanMin fine (some dc) else some dc

/-- The distances the decision is taken over: the coarse successful samples,
plus the fine ones when the fine pass was triggered. -/
def sampledDistances (coarse fine : List Sample) : List ℚ :=
  match scanMin coarse none with
  | none => successDistances coarse
  | some dc =>
    if dc < CLOSE_APPROACH_DETECTION_KM then
      successDistances coarse ++ successDistances fine
    else successDistances coarse

/-- Result of the close-approach check; the impact scenario is abstracted to
the closest-approach distance it is generated from. -/
structure CheckResult where
  will_impact : Bool
  impact_scenario : Option ℚ

/-- `check_close_approach_and_generate_impact`:
`will_impact = closest_approach['distance'] < self.IMPACT_THRESHOLD_KM`, and
`impact_scenario` is generated exactly when `will_impact` holds (`None`
otherwise). -/
def check_close_approach_and_generate_impact (coarse fine : List Sample) : CheckResult :=
  match finalClosest coarse fine with
  | none => ⟨false, none⟩
  | some dmin =>
    let wi := decide (dmin < IMPACT_THRESHOLD_KM)
    ⟨wi, if wi then some dmin else none⟩

/-- `scanMin` computes the minimum of the accumulator and the successful
sample distances: it returns `none` only from a `none` accumulator with no
successful sample, and any returned minimum is either the accumulator or a
sampled distance and is a lower bound for both. -/
theorem scanMin_spec (ss : List Sample) (acc : Option ℚ) :
    (scanMin ss acc = none ↔ acc = none ∧ successDistances ss = []) ∧
    ∀ m, scanMin ss acc = some m →
      (acc = some m ∨ m ∈ successDistances ss) ∧
      (∀ c, acc = some c → m ≤ c) ∧
      (∀ d ∈ successDistances ss, m ≤ d) := by
  induction ss generalizing acc with
  | nil =>
    refine ⟨by simp [scanMin, successDistances], ?_⟩
    intro m hm
    simp only [scanMin, List.foldl_nil] at hm
    refine ⟨Or.inl hm, ?_, by simp [successDistances]⟩
    intro c hc
    rw [hm] at hc
    exact le_of_eq (Option.some.inj hc)
  | cons s ss ih =>
    cases hs : s.success with
    | false =>
      have hestep : scanMin (s :: ss) acc = scanMin ss acc := by
        simp [scanMin, hs]
      have hsd : successDistances (s :: ss) = successDistances ss := by
        simp [successDistances, hs]
      rw [hestep, hsd]
      exact ih acc
    | true =>
      have hsd : successDistances (s :: ss) = s.distance :: successDistances ss := by
        simp [successDistances, hs]
      cases acc with
      | none =>
        have hestep : scanMin (s :: ss) none = scanMin ss (some s.distance) := by
          simp [scanMin, hs]
        obtain ⟨ihn, ihs⟩ := ih (some s.distance)
        constructor
        · rw [hestep, hsd, ihn]; simp
        · intro m hm
          rw [hestep] at hm
          obtain ⟨h1, h2, h3⟩ := ihs m hm
          refine ⟨?_, by simp, ?_⟩
          · rcases h1 with h1 | h1
            · exact Or.inr (by rw [hsd, ← Option.some.inj h1]; exact List.mem_cons_self _ _)
            · exact Or.inr (by rw [hsd]; exact List.mem_cons_of_mem _ h1)
          · intro d hd
            rw [hsd] at hd
            rcases List.mem_cons.mp hd with rfl | hd
            · exact h2 _ rfl
            · exact h3 _ hd
      | some c =>
        have hmin : (if s.distance < c then some s.distance else some c)
            = some (min c s.distance) := by
          split_ifs with h
          · rw [min_eq_right h.le]
          · rw [min_eq_left (not_lt.mp h)]
        have hestep : scanMin (s :: ss) (some c) = scanMin ss (some (min c s.distance)) := by
          simp only [scanMin, List.foldl_cons, hs, if_true, hmin]
        obtain ⟨ihn, ihs⟩ := ih (some (min c s.distance))
        constructor
        · rw [hestep, hsd, ihn]; simp
        · intro m hm
          rw [hestep] at hm
          obtain ⟨h1, h2, h3⟩ := ihs m hm
          have hmle : m ≤ min c s.distance := h2 _ rfl
          refine ⟨?_, ?_, ?_⟩
          · rcases h1 with h1 | h1
            · have hm' : min c s.distance = m := Option.some.inj h1
              rcases min_cases c s.distance with ⟨he, _⟩ | ⟨he, _⟩
              · exact Or.inl (by rw [← hm', he])
              · exact Or.inr (by rw [hsd, ← hm', he]; exact List.mem_cons_self _ _)
            · exact Or.inr (by rw [hsd]; exact List.mem_cons_of_mem _ h1)
          · intro e he
            obtain rfl := Option.some.inj he
            exact hmle.trans (min_le_left _ _)
          · intro d hd
            rw [hsd] at hd
            rcases List.mem_cons.mp hd with rfl | hd
            · exact hmle.trans (min_le_right _ _)
            · exact h3 _ hd

/-- Claim C5: `will_impact` is set to true iff the minimum sampled
Earth-relative distance (after the fine refinement pass, when triggered) is
strictly below the 100,000 km impact threshold, and the returned
`impact_scenario` is non-null iff `will_impact` is true; moreover the decided
minimum really is the minimum of the sampled distances. -/
theorem C5_impact_decision (coarse fine : List Sample) :
    ((check_close_approach_and_generate_impact coarse fine).will_impact = true ↔
      ∃ m, finalClosest coarse fine = some m ∧ m < IMPACT_THRESHOLD_KM) ∧
    ((check_close_approach_and_generate_impact coarse fine).impact_scenario.isSome =
      (check_close_approach_and_generate_impact coarse fine).will_impact) ∧
    ∀ m, finalClosest coarse fine = some m →
      m ∈ sampledDistances coarse fine ∧ ∀ d ∈ sampledDistances coarse fine, m ≤ d := by
  refine ⟨?_, ?_, ?_⟩
  · cases hfc : finalClosest coarse fine with
    | none => simp [check_close_approach_and_generate_impact, hfc]
    | some dmin => simp [check_close_approach_and_generate_impact, hfc]
  · cases hfc : finalClosest coarse fine with
    | none => simp [check_close_approach_and_generate_impact, hfc]
    | some dmin =>
      simp only [check_close_approach_and_generate_impact, hfc]
      by_cases h : dmin < IMPACT_THRESHOLD_KM
      · simp [h]
      · simp [h]
  · intro m hm
    unfold finalClosest at hm
    unfold sampledDistances
    cases hsc : scanMin coarse none with
    | none =>
      rw [hsc] at hm
      exact Option.noConfusion hm
    | some dc =>
      simp only [hsc] at hm ⊢
      obtain ⟨_, cspec⟩ := scanMin_spec coarse none
      obtain ⟨hdc1, _, hdc3⟩ := cspec dc hsc
      have hdcmem : dc ∈ successDistances coarse := by
        rcases hdc1 with h | h
        · exact Option.noConfusion h
        · exact h
      by_cases hdet : dc < CLOSE_APPROACH_DETECTION_KM
      · rw [if_pos hdet] at hm ⊢
        obtain ⟨_, fspec⟩ := scanMin_spec fine (some dc)
        obtain ⟨hf1, hf2, hf3⟩ := fspec m hm
        have hmdc : m ≤ dc := hf2 _ rfl
        constructor
        · rcases hf1 with h | h
          · obtain rfl := Option.some.inj h
            exact List.mem_append.mpr (Or.inl hdcmem)
          · exact List.mem_append.mpr (Or.inr h)
        · intro d hd
          rcases List.mem_append.mp hd with hd | hd
          · exact hmdc.trans (hdc3 _ hd)
          · exact hf3 _ hd
      · rw [if_neg hdet] at hm ⊢
        obtain rfl := Option.some.inj hm
        exact ⟨hdcmem, fun d hd => hdc3 _ hd⟩

/-! ## Orbital mechanics (`server/utils/orbital_mechanics.py`) -/

/-- `AU = 149597870.7` km. -/
def AU : ℝ := 149597870.7

/-- `GM_SUN = 1.32712440018e11` km³/s². -/
def GM_SUN : ℝ := 1.32712440018e11

/-- The Newton-Raphson loop of `_solve_kepler_equation`, instrumented with a
flag recording whether the loop exited through its convergence test
`abs(E_new - E) < tolerance`.  `fuel` is the remaining iteration budget (50 at
the top call); the `false` flag marks the two unlabeled exits of the source:
the near-zero-derivative `break` and falling out of the loop after the last
iteration. -/
noncomputable def keplerLoop (e tol M : ℝ) : ℕ → ℝ → ℝ × Bool
  | 0, E => (E, false)
  | fuel + 1, E =>
    let f := E - e * Real.sin E - M
    let fp := 1 - e * Real.cos E
    if |fp| < 1e-12 then (E, false)
    else
      let Enew := E - f / fp
      if |Enew - E| < tol then (Enew, true)
      else keplerLoop e tol M fuel Enew

/-- `_solve_kepler_equation(M, e)` together with its convergence information. -/
noncomputable def solve_kepler_instrumented (M e : ℝ) : ℝ × Bool :=
  keplerLoop e 1e-6 M 50 M

/-- `_solve_kepler_equation(M, e)`: the source returns only the float, with no
convergence flag. -/
noncomputable def solve_kepler_equation (M e : ℝ) : ℝ :=
  (solve_kepler_instrumented M e).1

/-- Claim C9: for eccentricity 0 the Kepler solver returns the mean anomaly
exactly: the first Newton step computes `E_new = M - (M - 0·sin M - M)/1 = M`,
the convergence test `|M - M| < 1e-6` succeeds, and `M` is returned. -/
theorem C9_kepler_circular (M : ℝ) : solve_kepler_equation M 0 = M := by
  unfold solve_kepler_equation solve_kepler_instrumented
  show (keplerLoop 0 1e-6 M (49 + 1) M).1 = M
  rw [keplerLoop]
  norm_num

/-- Claim C8 evaluation: at `(M, e) = (0, 1)` the solver breaks out on the
near-zero derivative `1 - 1·cos 0 = 0` without ever satisfying the 1e-6
convergence test, and returns the bare unlabeled estimate `0`: the
instrumented run shows the convergence flag is `false`, while the source's
return value is only the float `0.0`. -/
theorem C8_kepler_unflagged_return :
    (solve_kepler_instrumented 0 1).2 = false ∧ solve_kepler_equation 0 1 = 0 := by
  constructor
  · unfold solve_kepler_instrumented
    show (keplerLoop 1 1e-6 0 (49 + 1) 0).2 = false
    rw [keplerLoop]
    norm_num
  · unfold solve_kepler_equation solve_kepler_instrumented
    show (keplerLoop 1 1e-6 0 (49 + 1) 0).1 = 0
    rw [keplerLoop]
    norm_num

/-- The orbital-element dictionary consumed by `calculate_position`:
`None` models an absent key. -/
structure OrbitalElements where
  semi_major_axis : Option ℝ
  eccentricity : Option ℝ
  inclination : Option ℝ
  ascending_node : Option ℝ
  argument_perihelion : Option ℝ
  mean_anomaly : Option ℝ
  epoch : Option ℝ

/-- `math.atan2(y, x)` (C library semantics, as used by the source). -/
noncomputable def atan2 (y x : ℝ) : ℝ :=
  if 0 < x then Real.arctan (y / x)
  else if x < 0 then
    (if 0 ≤ y then Real.arctan (y / x) + Real.pi else Real.arctan (y / x) - Real.pi)
  else (if 0 < y then Real.pi / 2 else if y < 0 then -(Real.pi / 2) else 0)

/-- Python float `%` for a positive modulus: `x - y * floor(x / y)`. -/
noncomputable def pyMod (x y : ℝ) : ℝ := x - y * ⌊x / y⌋

/-- The success payload of `calculate_position`. -/
structure StateResult where
  position_km : ℝ × ℝ × ℝ
  velocity_km_s : ℝ × ℝ × ℝ
  distance_au : ℝ
  true_anomaly_deg : ℝ
  eccentric_anomaly_deg : ℝ
  mean_anomaly_deg : ℝ

/-- `RealisticOrbitalMechanics.calculate_position`.  The surrounding
`try/except` of the source converts every raised exception into a failure
result; the embedding makes each raise site explicit: dictionary lookup of a
missing element (`KeyError`), float division by zero (`a³ = 0`, `r = 0`) and
`math.sqrt` of a negative argument (mean motion, `sqrt(1±e)`, vis-viva).
`tDays` is the target date measured in days from the J2000 anchor, so
`current_jd = 2451545.0 + tDays`. -/
noncomputable def calculate_position (el : OrbitalElements) (tDays : ℝ) :
    Except String StateResult :=
  match el.semi_major_axis, el.eccentricity, el.inclination, el.ascending_node,
      el.argument_perihelion, el.mean_anomaly with
  | some aAU, some e, some iDeg, some OmegaDeg, some omegaDeg, some M0Deg =>
    let a := aAU * AU
    let i := radiansOf iDeg
    let Omega := radiansOf OmegaDeg
    let omega := radiansOf omegaDeg
    let M0 := radiansOf M0Deg
    let epoch := el.epoch.getD 2451545.0
    let current_jd := 2451545.0 + tDays
    let dt_days := current_jd - epoch
    if a ^ 3 = 0 then Except.error "float division by zero"
    else if GM_SUN / a ^ 3 < 0 then Except.error "math domain error"
    else
      let n := Real.sqrt (GM_SUN / a ^ 3)
      let n_per_day := n * 86400
      let M := pyMod (M0 + n_per_day * dt_days) (2 * Real.pi)
      let E := solve_kepler_equation M e
      if 1 + e < 0 then Except.error "math domain error"
      else if 1 - e < 0 then Except.error "math domain error"
      else
        let nu := 2 * atan2 (Real.sqrt (1 + e) * Real.sin (E / 2))
          (Real.sqrt (1 - e) * Real.cos (E / 2))
        let r := a * (1 - e * Real.cos E)
        let x_orb := r * Real.cos nu
        let y_orb := r * Real.sin nu
        let x := (Real.cos Omega * Real.cos omega - Real.sin Omega * Real.sin omega * Real.cos i) * x_orb
          + (-(Real.cos Omega) * Real.sin omega - Real.sin Omega * Real.cos omega * Real.cos i) * y_orb
        let y := (Real.sin Omega * Real.cos omega + Real.cos Omega * Real.sin omega * Real.cos i) * x_orb
          + (-(Real.sin Omega) * Real.sin omega + Real.cos Omega * Real.cos omega * Real.cos i) * y_orb
        let z := Real.sin omega * Real.sin i * x_orb + Real.cos omega * Real.sin i * y_orb
        if r = 0 then Except.error "float division by zero"
        else if GM_SUN * (2 / r - 1 / a) < 0 then Except.error "math domain error"
        else
          let v_mag := Real.sqrt (GM_SUN * (2 / r - 1 / a)) / 1000
          Except.ok ⟨(x, y, z), (-y / r * v_mag, x / r * v_mag, 0), r / AU,
            degreesOf nu, degreesOf E, degreesOf M⟩
  | _, _, _, _, _, _ => Except.error "KeyError"

/-- Claim C7: `calculate_position` never propagates an exception — when a
required element field is absent, or the elements are degenerate
(semi-major axis ≤ 0 makes the mean-motion square root or the `1/a` term
undefined), it returns an explicit failure result instead of raising. -/
theorem C7_calculate_position_failure (el : OrbitalElements) (tDays : ℝ)
    (h : el.semi_major_axis = none ∨ el.eccentricity = none ∨ el.inclination = none ∨
      el.ascending_node = none ∨ el.argument_perihelion = none ∨ el.mean_anomaly = none ∨
      ∃ aAU, el.semi_major_axis = some aAU ∧ aAU ≤ 0) :
    ∃ msg, calculate_position el tDays = Except.error msg := by
  obtain ⟨a?, e?, i?, O?, w?, M?, ep?⟩ := el
  rcases a? with _ | aV
  · exact ⟨"KeyError", rfl⟩
  rcases e? with _ | eV
  · exact ⟨"KeyError", rfl⟩
  rcases i? with _ | iV
  · exact ⟨"KeyError", rfl⟩
  rcases O? with _ | OV
  · exact ⟨"KeyError", rfl⟩
  rcases w? with _ | wV
  · exact ⟨"KeyError", rfl⟩
  rcases M? with _ | MV
  · exact ⟨"KeyError", rfl⟩
  rcases h with h | h | h | h | h | h | ⟨aAU, hA, ha⟩
  · exact Option.noConfusion h
  · exact Option.noConfusion h
  · exact Option.noConfusion h
  · exact Option.noConfusion h
  · exact Option.noConfusion h
  · exact Option.noConfusion h
  obtain rfl := Option.some.inj hA
  have hAU : (0:ℝ) < AU := by unfold AU; norm_num
  rcases eq_or_lt_of_le ha with heq | hlt
  · refine ⟨"float division by zero", ?_⟩
    simp only [calculate_position]
    rw [if_pos (by rw [heq]; norm_num : (aV * AU) ^ 3 = 0)]
  · refine ⟨"math domain error", ?_⟩
    have ha3 : (aV * AU) ^ 3 < 0 :=
      Odd.pow_neg ⟨1, by norm_num⟩ (mul_neg_of_neg_of_pos hlt hAU)
    have hgm : GM_SUN / (aV * AU) ^ 3 < 0 :=
      div_neg_of_pos_of_neg (by unfold GM_SUN; norm_num) ha3
    simp only [calculate_position]
    rw [if_neg (ne_of_lt ha3), if_pos hgm]

/-- Witness for C7: an element set with `semi_major_axis = -1` (degenerate). -/
theorem C7_calculate_position_failure_witness :
    (∃ aAU, (⟨some (-1), some 0.2, some 5, some 45, some 30, some 0, none⟩ :
        OrbitalElements).semi_major_axis = some aAU ∧ aAU ≤ 0) ∧
    (∃ msg, calculate_position
      ⟨some (-1), some 0.2, some 5, some 45, some 30, some 0, none⟩ 0 =
        Except.error msg) :=
  ⟨⟨-1, rfl, by norm_num⟩,
    C7_calculate_position_failure _ 0
      (Or.inr (Or.inr (Or.inr (Or.inr (Or.inr (Or.inr ⟨-1, rfl, by norm_num⟩))))))⟩

/-- Claim C10: whenever `calculate_position` succeeds, the returned velocity
has third component exactly 0 and equals `v_mag · (−y/r, x/r, 0)`, where
`(x, y)` are the first two components of the returned heliocentric position,
`r` is the radius (`distance_au · AU`) and `v_mag` the vis-viva magnitude
`sqrt(GM_SUN·(2/r − 1/a))/1000` — the reported velocity always lies in the
ecliptic x-y plane regardless of the orbit's inclination. -/
theorem C10_velocity_in_plane (el : OrbitalElements) (tDays aAU : ℝ)
    (hA : el.semi_major_axis = some aAU) :
    match calculate_position el tDays with
    | Except.error _ => True
    | Except.ok res =>
      res.velocity_km_s.2.2 = 0 ∧
      res.velocity_km_s =
        (-(res.position_km.2.1) / (res.distance_au * AU) *
          (Real.sqrt (GM_SUN * (2 / (res.distance_au * AU) - 1 / (aAU * AU))) / 1000),
         res.position_km.1 / (res.distance_au * AU) *
          (Real.sqrt (GM_SUN * (2 / (res.distance_au * AU) - 1 / (aAU * AU))) / 1000),
         0) := by
  obtain ⟨a?, e?, i?, O?, w?, M?, ep?⟩ := el
  cases a? with
  | none => exact Option.noConfusion hA
  | some aV =>
    obtain rfl := Option.some.inj hA
    rcases e? with _ | eV
    · exact trivial
    rcases i? with _ | iV
    · exact trivial
    rcases O? with _ | OV
    · exact trivial
    rcases w? with _ | wV
    · exact trivial
    rcases M? with _ | MV
    · exact trivial
    have hAUne : (AU : ℝ) ≠ 0 := by unfold AU; norm_num
    have hsimp : ∀ x : ℝ, x / AU * AU = x := fun x => div_mul_cancel₀ x hAUne
    simp only [calculate_position]
    split_ifs with h1 h2 h3 h4 h5 h6
    · exact trivial
    · exact trivial
    · exact trivial
    · exact trivial
    · exact trivial
    · exact trivial
    · refine ⟨rfl, ?_⟩
      simp only [hsimp]

/-- Witness for C10: circular coplanar elements (`a = 1 AU`, everything else
zero), evaluated at the J2000 anchor. -/
theorem C10_velocity_in_plane_witness :
    ((⟨some 1, some 0, some 0, some 0, some 0, some 0, none⟩ :
        OrbitalElements).semi_major_axis = some 1) ∧
    (match calculate_position
        ⟨some 1, some 0, some 0, some 0, some 0, some 0, none⟩ 0 with
     | Except.error _ => True
     | Except.ok res =>
       res.velocity_km_s.2.2 = 0 ∧
       res.velocity_km_s =
         (-(res.position_km.2.1) / (res.distance_au * AU) *
           (Real.sqrt (GM_SUN * (2 / (res.distance_au * AU) - 1 / (1 * AU))) / 1000),
          res.position_km.1 / (res.distance_au * AU) *
           (Real.sqrt (GM_SUN * (2 / (res.distance_au * AU) - 1 / (1 * AU))) / 1000),
          0)) :=
  ⟨rfl, C10_velocity_in_plane _ 0 1 rfl⟩

/-! ## Impact-scenario synthesis formulas
(`prediction_controller.py`, `StrategicImpactGenerator`) -/

/-- `StrategicImpactGenerator._estimate_mass`: hardcoded density 2500 kg/m³,
`radius_m = diameter_km * 500`. -/
noncomputable def estimate_mass (diameter_km : ℝ) : ℝ :=
  (4 / 3) * Real.pi * (diameter_km * 500) ^ 3 * 2500

/-- `_generate_accurate_impact_scenario`:
`impact_energy_joules = 0.5 * mass_kg * (impact_velocity_km_s * 1000)**2`. -/
noncomputable def scenario_impact_energy_joules (diameter_km v : ℝ) : ℝ :=
  0.5 * estimate_mass diameter_km * (v * 1000) ^ 2

/-- `_calculate_enhanced_crater_diameter`: `K1 = 1.8`,
`crater = K1 * projectile_diameter_m * (velocity_m_s/1000)**(2/3) * sin(angle)**(1/3)`
— a scaling law different in form from `calculate_crater_size` (§4.1), which
scales as `energy^0.22`. -/
noncomputable def enhanced_crater_diameter (diameter_km v angle_deg : ℝ) : ℝ :=
  1.8 * (diameter_km * 1000) * (v * 1000 / 1000) ^ ((2:ℝ) / 3) *
    Real.sin (radiansOf angle_deg) ^ ((1:ℝ) / 3)

/-- Counterexample to claim C6: for the same asteroid diameter (1 km = 1000 m)
and the same impact velocity (20 km/s), the scenario-synthesis impact energy
(computed with `_estimate_mass`'s hardcoded density 2500 kg/m³) differs from
the energy the Impact Effects Calculator computes (default density
2600 kg/m³): the synthesis path does not obtain these figures from the §4.1
calculator. -/
theorem C6_counterexample :
    scenario_impact_energy_joules 1 20 ≠ kinetic_energy_joules 1000 20 2600 := by
  unfold scenario_impact_energy_joules estimate_mass kinetic_energy_joules asteroid_mass
  intro h
  nlinarith [Real.pi_pos]

/-- Claim C6 amended: the scenario-synthesis path computes its figures with
its own formulas rather than the §4.1 calculator's: its impact energy uses the
hardcoded density 2500 kg/m³, hence equals exactly 25/26 of the calculator's
energy at the calculator's default density and never equals it for positive
inputs. -/
theorem C6_scenario_energy_independent (dk v : ℝ) (hd : 0 < dk) (hv : 0 < v) :
    scenario_impact_energy_joules dk v =
      (25 / 26) * kinetic_energy_joules (dk * 1000) v 2600 ∧
    scenario_impact_energy_joules dk v ≠ kinetic_energy_joules (dk * 1000) v 2600 := by
  have hk : 0 < kinetic_energy_joules (dk * 1000) v 2600 := by
    unfold kinetic_energy_joules asteroid_mass; positivity
  have heq : scenario_impact_energy_joules dk v =
      (25 / 26) * kinetic_energy_joules (dk * 1000) v 2600 := by
    unfold scenario_impact_energy_joules estimate_mass kinetic_energy_joules asteroid_mass
    ring
  refine ⟨heq, ?_⟩
  rw [heq]
  intro hcontra
  linarith

/-- Witness for the amended C6 at diameter 1 km, velocity 20 km/s. -/
theorem C6_scenario_energy_independent_witness :
    (0:ℝ) < 1 ∧ (0:ℝ) < 20 ∧
    (scenario_impact_energy_joules 1 20 =
      (25 / 26) * kinetic_energy_joules (1 * 1000) 20 2600 ∧
    scenario_impact_energy_joules 1 20 ≠ kinetic_energy_joules (1 * 1000) 20 2600) :=
  ⟨by norm_num, by norm_num,
    C6_scenario_energy_independent 1 20 (by norm_num) (by norm_num)⟩

end AstroShield
